import Mathlib

/-!
Verification of the `ludicrea/discovery-ui` client
(`src/static/script-discovery-v2.js`): the wordcloud pagination and
spiral tag-placement engine, the selection/search state handling, and the
small utility functions (`extractYouTubeVideoId`, the color pickers,
`getWordcloudItemsPerPage`).

Modelling conventions:
* JavaScript numbers are modelled as `ℚ`; the single expression that can
  produce `NaN` here (`x % 0` in the page-index update) is modelled with
  `Option`, `none` standing for `NaN`.
* `Math.random()` is modelled as an explicit stream `ℕ → ℚ` threaded by
  index, as the spec itself suggests ("taking an injectable random
  source").  `Math.cos` / `Math.sin` are opaque ambient functions
  `ℚ → ℚ` carried in the same environment record: the placement
  invariants under scrutiny hold for every such pair of functions, in
  particular for the real cosine and sine.
* The page shuffle (`sort(() => Math.random() - 0.5)`) permutes the item
  list in an implementation-defined way; the placement theorems are
  stated for every input list, which covers every shuffle outcome.
-/

/- ──────────────────────────────────────────────────────────────
   Wordcloud pagination (script-discovery-v2.js lines 176-184,
   207-213, 240-241, 299-302)
   ────────────────────────────────────────────────────────────── -/

/-- Function `getWordcloudItemsPerPage` (lines 176-184): 10 items below 480px,
12 in [480, 768), 14 from 768px up. -/
def getWordcloudItemsPerPage (w : ℚ) : ℕ :=
  if w < 480 then 10
  else if w < 768 then 12
  else 14

/-- The minimum-five padding of `renderWordcloud` (lines 207-213):
`allItems = [...allItems, ...allItems.slice(0, 5 - allItems.length)]`
when the list is shorter than 5.  `slice(0, n)` clips to the list
length, which is `List.take`. -/
def padItems (allItems : List α) : List α :=
  if allItems.length < 5 then
    let needed := 5 - allItems.length
    let duplicated := allItems.take needed
    allItems ++ duplicated
  else allItems

/-- The quantity `Math.ceil(allItems.length / WORDCLOUD_ITEMS_PER_PAGE)` on naturals
(used at lines 241 and 393). -/
def pageCount (len ps : ℕ) : ℕ := (len + ps - 1) / ps

/-- The next-page button handler (lines 240-241):
`currentPageIndex = (currentPageIndex + 1) % pageCount`.  In JavaScript
`x % 0` is `NaN`; `none` models that value. -/
def nextPageIndex (idx len ps : ℕ) : Option ℕ :=
  let pc := pageCount len ps
  if pc = 0 then none else some ((idx + 1) % pc)

/-- The slice of `displayWordcloudPage` (lines 300-302):
`allItems.slice(idx*PAGE, idx*PAGE + PAGE)`.  A `NaN` index yields
`slice(NaN, NaN) = slice(0, 0) = []`. -/
def currentPageItems (allItems : List α) (idx : Option ℕ) (ps : ℕ) : List α :=
  match idx with
  | none => []
  | some i => (allItems.drop (i * ps)).take ps

/-- Repeated clicks of the next-page button, `NaN` propagating through
`Option.bind`. -/
def iterNextPage (len ps : ℕ) : Option ℕ → ℕ → Option ℕ
  | idx, 0 => idx
  | idx, n + 1 => iterNextPage len ps (idx.bind fun i => nextPageIndex i len ps) n

/- ──────────────────────────────────────────────────────────────
   Color palettes (lines 427-453)
   ────────────────────────────────────────────────────────────── -/

/-- The eight-entry palette of `getPhilosopherColor` (lines 429-438). -/
def philosopherColors : List String :=
  ["#5ba3d0", "#7ec8a0", "#c9a8d8", "#9fb8d4",
   "#a8d4a0", "#d4a8c9", "#6b9cbd", "#7fb8a0"]

/-- The six-entry palette of `getThemeColor` (lines 444-451). -/
def themeColors : List String :=
  ["#d4a8b8", "#b8d4a8", "#a8b8d4", "#d4c9a8", "#c9a8d4", "#a8d4c9"]

/-- Code of the first character of a string, 0 for the empty string
(only used under a nonemptiness hypothesis).  `charCodeAt(0)` returns a
UTF-16 code unit; all palette inputs are BMP characters, for which the
code unit equals the code point `Char.toNat`. -/
def firstCharCode (s : String) : ℕ := (s.data.map Char.toNat).headD 0

/-- Function `getPhilosopherColor` (lines 427-440):
`colors[name.charCodeAt(0) % colors.length]`.  For the empty string
`charCodeAt(0)` is `NaN` and the lookup is `undefined`, modelled as
`none`. -/
def getPhilosopherColor (name : String) : Option String :=
  match name.data with
  | [] => none
  | c :: _ => some (philosopherColors.getD (c.toNat % philosopherColors.length) "")

/-- Function `getThemeColor` (lines 442-453), same shape with the six-entry
palette. -/
def getThemeColor (name : String) : Option String :=
  match name.data with
  | [] => none
  | c :: _ => some (themeColors.getD (c.toNat % themeColors.length) "")

/- ──────────────────────────────────────────────────────────────
   extractYouTubeVideoId (lines 720-735) and a small WHATWG-URL
   subset sufficient for `new URL(url)` on http(s) URLs without
   percent-encoding, credentials or IDNA (none of which the
   function's callers produce).
   ────────────────────────────────────────────────────────────── -/

/-- Split a character list at the first `"://"`, returning the scheme
part and the remainder; `none` when no `"://"` occurs (in which case
`new URL` throws for the inputs considered here). -/
def splitScheme : List Char → Option (List Char × List Char)
  | [] => none
  | ':' :: '/' :: '/' :: rest => some ([], rest)
  | c :: rest => (splitScheme rest).map fun p => (c :: p.1, p.2)

/-- Split a character list on a separator character. -/
def splitOnChar (sep : Char) (cs : List Char) : List (List Char) :=
  cs.foldr
    (fun c acc =>
      if c = sep then [] :: acc
      else
        match acc with
        | [] => [[c]]
        | g :: gs => (c :: g) :: gs)
    [[]]

/-- Join character lists with a separator character. -/
def joinWith (sep : Char) : List (List Char) → List Char
  | [] => []
  | [x] => x
  | x :: xs => x ++ sep :: joinWith sep xs

/-- Whether `needle` occurs at the start of the second list. -/
def leadsWith : List Char → List Char → Bool
  | [], _ => true
  | _ :: _, [] => false
  | a :: as, b :: bs => a = b && leadsWith as bs

/-- The test `String.prototype.includes` on character lists (for a nonempty
needle). -/
def containsSub (needle : List Char) : List Char → Bool
  | [] => leadsWith needle []
  | c :: rest => leadsWith needle (c :: rest) || containsSub needle rest

/-- The components of a parsed URL that `extractYouTubeVideoId` reads. -/
structure URLParts where
  hostname : String
  pathname : String
  search : String
deriving DecidableEq, Repr

/-- Constructor `new URL(url)` restricted to the shape `scheme://host[/path][?query][#frag]`:
hostname up to the first `/`, `?` or `#`; pathname from the first `/`
(serialized as `"/"` when empty, as WHATWG does for special schemes);
query between `?` and `#`.  Inputs without `"://"` or with an empty
scheme or host make the constructor throw, modelled as `none`. -/
def parseURL (url : String) : Option URLParts :=
  match splitScheme url.data with
  | none => none
  | some (scheme, rest) =>
    if scheme.isEmpty then none
    else
      let hostCs := rest.takeWhile fun c => !(c = '/' || c = '?' || c = '#')
      let afterHost := rest.dropWhile fun c => !(c = '/' || c = '?' || c = '#')
      if hostCs.isEmpty then none
      else
        let pathCs :=
          match afterHost with
          | '/' :: _ => afterHost.takeWhile fun c => !(c = '?' || c = '#')
          | _ => ['/']
        let afterPath :=
          match afterHost with
          | '/' :: _ => afterHost.dropWhile fun c => !(c = '?' || c = '#')
          | _ => afterHost
        let searchCs :=
          match afterPath with
          | '?' :: qs => qs.takeWhile fun c => !(c = '#')
          | _ => []
        some ⟨String.mk hostCs, String.mk pathCs, String.mk searchCs⟩

/-- Lookup `urlObj.searchParams.get(key)`: first `&`-separated pair whose part
before the first `=` equals `key`; value is everything after that `=`
(empty when there is no `=`); `none` when no pair matches. -/
def searchParamsGet (search key : String) : Option String :=
  let pairs := (splitOnChar '&' search.data).filter fun p => !p.isEmpty
  let kvs := pairs.map fun p =>
    match splitOnChar '=' p with
    | [] => (String.mk p, "")
    | k :: vs => (String.mk k, String.mk (joinWith '=' vs))
  (kvs.find? fun kv => kv.1 = key).map fun kv => kv.2

/-- Function `extractYouTubeVideoId` (lines 720-735).  On a `youtube.com` host the
result is `searchParams.get("v") || null` (so an empty `v` value yields
`null`); on a `youtu.be` host it is `pathname.substring(1)`; otherwise,
or when `new URL` throws, it is `null`. -/
def extractYouTubeVideoId (url : String) : Option String :=
  match parseURL url with
  | none => none
  | some u =>
    if containsSub ("youtube.com").data u.hostname.data then
      match searchParamsGet u.search ("v") with
      | some v => if v = "" then none else some v
      | none => none
    else if containsSub ("youtu.be").data u.hostname.data then
      some (String.mk (u.pathname.data.drop 1))
    else none

/-- Modelled from the spec: "if host contains `youtu.be`, the identifier
is the first path segment" — the first `/`-separated segment of the
path, for comparison against what the code computes. -/
def specFirstPathSegment (pathname : String) : String :=
  String.mk ((splitOnChar '/' (pathname.data.drop 1)).headD [])

/- ──────────────────────────────────────────────────────────────
   The spiral placement engine of `displayWordcloudPage`
   (lines 292-425)
   ────────────────────────────────────────────────────────────── -/

/-- A placed bounding box, as pushed at line 351:
`{ x, y, width, height }`. -/
structure Box where
  x : ℚ
  y : ℚ
  width : ℚ
  height : ℚ
deriving DecidableEq, Repr

/-- The ambient nondeterminism and math of the engine: the stream of
`Math.random()` results consumed left to right, and the `Math.cos` /
`Math.sin` functions, kept opaque (the invariants below hold for every
choice, in particular the real cosine and sine). -/
structure Env where
  rand : ℕ → ℚ
  cosF : ℚ → ℚ
  sinF : ℚ → ℚ

/-- Function `isCollidingStrict` (lines 403-415): the candidate box collides with
some already placed box unless it clears it by more than the padding 15
on some side. -/
def isCollidingStrict (x y width height : ℚ) (placed : List Box) : Bool :=
  let padding : ℚ := 15
  placed.any fun item =>
    !(decide (x + width + padding < item.x) ||
      decide (x > item.x + item.width + padding) ||
      decide (y + height + padding < item.y) ||
      decide (y > item.y + item.height + padding))

/-- Function `getItemWidth` (lines 397-401): `widths[size - 1] || 120` over
`[80, 100, 120, 140, 160]`. -/
def getItemWidth (size : ℕ) : ℚ :=
  match size with
  | 1 => 80
  | 2 => 100
  | 3 => 120
  | 4 => 140
  | 5 => 160
  | _ => 120

/-- Function `getRandomSize` (lines 417-425) applied to one `Math.random()`
draw. -/
def getRandomSize (r : ℚ) : ℕ :=
  if r < 2/5 then 2
  else if r < 7/10 then 3
  else if r < 17/20 then 1
  else if r < 19/20 then 4
  else 5

/-- Operation `Math.min` on the (`NaN`-free) rationals handled here. -/
def jsMin (a b : ℚ) : ℚ := if a ≤ b then a else b

/-- Operation `Math.max` on the (`NaN`-free) rationals handled here. -/
def jsMax (a b : ℚ) : ℚ := if a ≤ b then b else a

/-- One candidate position (lines 333-342), consuming `env.rand i` for
the angle jitter and `env.rand (i+1)` for the radius jitter, then
clamped into `[5, cw - w - 5] × [5, ch - h - 5]`.  `cw`/`ch` are the
container size already reduced by 15 (lines 308-309); the compact-mode
flags are derived from `cw` exactly as at lines 312-313. -/
def candidate (env : Env) (cw ch angle radius w h : ℚ) (i : ℕ) : ℚ × ℚ :=
  let isSmallMobile := cw < 480
  let angleOffset := (env.rand i - 1/2) * (if isSmallMobile then 3/10 else 1/2)
  let radiusOffset := (env.rand (i + 1) - 1/2) * (if isSmallMobile then 40 else 60)
  let centerX := cw / 2
  let centerY := ch / 2
  let x0 := centerX + env.cosF (angle + angleOffset) * (radius + radiusOffset) - w / 2
  let y0 := centerY + env.sinF (angle + angleOffset) * (radius + radiusOffset) - h / 2
  (jsMax 5 (jsMin x0 (cw - w - 5)), jsMax 5 (jsMin y0 (ch - h - 5)))

/-- The retry `do … while (isCollidingStrict(…) && attempts < 20)` loop
(lines 329-348).  Returns the last candidate `(x, y)`, the final value
of `attempts`, and the next unread index of the random stream.  The
loop body runs at most `20 - attempts` more times, which bounds the
fuel; the fuel-exhausted branch is unreachable from the call site. -/
def placeLoop (env : Env) (cw ch angle radius w h : ℚ) (placed : List Box) :
    ℕ → ℕ → ℕ → ℚ × ℚ × ℕ × ℕ
  | i, attempts, 0 => (0, 0, attempts, i)
  | i, attempts, fuel + 1 =>
    let c := candidate env cw ch angle radius w h i
    let attempts' := attempts + 1
    if isCollidingStrict c.1 c.2 w h placed = true ∧ attempts' < 20 then
      placeLoop env cw ch angle radius w h placed (i + 2) attempts' fuel
    else
      (c.1, c.2, attempts', i + 2)

/-- The per-page engine state: the accumulating `angle` and `radius`
(lines 317-318, 371-372), the `placed` array, the `maxY` tracker
(line 352), and the cursor into the random stream. -/
structure PlaceState where
  angle : ℚ
  radius : ℚ
  placed : List Box
  maxY : ℚ
  i : ℕ
deriving DecidableEq, Repr

/-- Engine state at the top of `displayWordcloudPage`: `angle = 0`,
`radius = isMobile ? 50 : 80` (lines 317-318). -/
def initState (cw : ℚ) : PlaceState :=
  { angle := 0
    radius := if cw < 768 then 50 else 80
    placed := []
    maxY := 0
    i := 0 }

/-- One iteration of `shuffled.forEach` (lines 323-373): draw the size
tier (one random), run the retry loop (two randoms per attempt), and on
success (`attempts < 20`) push the box, record `maxY`, and consume one
more random for the fade-in animation delay (line 362); in both cases
advance `angle` and `radius` with one random each (lines 371-372). -/
def placeItem (env : Env) (cw ch : ℚ) (s : PlaceState) : PlaceState × Option Box :=
  let isMobile := cw < 768
  let size := getRandomSize (env.rand s.i)
  let itemWidth := getItemWidth size
  let itemHeight : ℚ := 40
  let r := placeLoop env cw ch s.angle s.radius itemWidth itemHeight s.placed (s.i + 1) 0 20
  let x := r.1
  let y := r.2.1
  let attempts := r.2.2.1
  let i2 := r.2.2.2
  if attempts < 20 then
    let b : Box := ⟨x, y, itemWidth, itemHeight⟩
    ({ angle := s.angle + 1/2 + env.rand (i2 + 1) * (3/10)
       radius := s.radius + (if isMobile then 12 else 20) +
         env.rand (i2 + 2) * (if isMobile then 8 else 15)
       placed := s.placed ++ [b]
       maxY := max s.maxY (y + itemHeight)
       i := i2 + 3 }, some b)
  else
    ({ angle := s.angle + 1/2 + env.rand i2 * (3/10)
       radius := s.radius + (if isMobile then 12 else 20) +
         env.rand (i2 + 1) * (if isMobile then 8 else 15)
       placed := s.placed
       maxY := s.maxY
       i := i2 + 2 }, none)

/-- The whole placement pass over one page of (already shuffled) items;
`placed` of the result is the list of emitted placements, in order. -/
def placeAll (env : Env) (cw ch : ℚ) (items : List String) : PlaceState :=
  items.foldl (fun s _ => (placeItem env cw ch s).1) (initState cw)

/-- The width drawn for the item about to be placed from state `s`. -/
def itemW (env : Env) (s : PlaceState) : ℚ :=
  getItemWidth (getRandomSize (env.rand s.i))

/-- The candidate the retry loop examines at (0-based) attempt `k` when
placing one item from state `s`. -/
def itemCandidate (env : Env) (cw ch : ℚ) (s : PlaceState) (k : ℕ) : ℚ × ℚ :=
  candidate env cw ch s.angle s.radius (itemW env s) 40 (s.i + 1 + 2 * k)

/-- The separation `isCollidingStrict` enforces between a newly accepted
box `b` and an already placed box `a`: `b` clears `a` by more than the
padding 15 on some side — equivalently, `b` does not meet `a` expanded
by 15 on all four sides. -/
def SepBoxes (b a : Box) : Prop :=
  b.x + b.width + 15 < a.x ∨ b.x > a.x + a.width + 15 ∨
  b.y + b.height + 15 < a.y ∨ b.y > a.y + a.height + 15

instance (b a : Box) : Decidable (SepBoxes b a) :=
  inferInstanceAs (Decidable (_ ∨ _ ∨ _ ∨ _))

/-- Modelled from the claim wording: the boxes obtained by expanding
`a` and `b` *each* by 15 on all sides are disjoint (as closed
rectangles) — i.e. the originals clear each other by more than 30. -/
def paddedDisjoint (a b : Box) : Prop :=
  a.x + a.width + 15 < b.x - 15 ∨ b.x + b.width + 15 < a.x - 15 ∨
  a.y + a.height + 15 < b.y - 15 ∨ b.y + b.height + 15 < a.y - 15

instance (a b : Box) : Decidable (paddedDisjoint a b) :=
  inferInstanceAs (Decidable (_ ∨ _ ∨ _ ∨ _))

/-- The containment property of a placed box that the clamping at
lines 341-342 is meant to establish: at least 5 from the left/top edge
always, and at least 5 from the right/bottom edge whenever the bounds
leave room for the box at all (`width + 10 ≤ cw`, `height + 10 ≤ ch`). -/
def InBounds (cw ch : ℚ) (b : Box) : Prop :=
  5 ≤ b.x ∧ 5 ≤ b.y ∧ (b.width + 10 ≤ cw → b.x + b.width ≤ cw - 5) ∧
    (b.height + 10 ≤ ch → b.y + b.height ≤ ch - 5)

/- Concrete environments used to exercise the engine. -/

/-- Every random draw `1/2`, cosine and sine constantly 0. -/
def constEnvHalf : Env := ⟨fun _ => 1/2, fun _ => 0, fun _ => 0⟩

/-- Environment producing two placements 20 apart vertically. -/
def envTwoClose : Env :=
  ⟨fun i => if i = 8 then 7/12 else 1/2,
   fun _ => 0,
   fun q => if q = 13/20 then 8/15 else 0⟩

/-- Environment whose second item collides on attempts 1-19 and is
collision-free exactly at attempt 20. -/
def envLateFree : Env :=
  ⟨fun i => if i = 45 then 9/10 else if i = 46 then 5/6 else 1/2,
   fun _ => 0,
   fun q => if q = 17/20 then -1 else 0⟩

/- ──────────────────────────────────────────────────────────────
   The discovery search and its error handling
   (`discover`, lines 104-161, and the search-button handler,
   lines 624-647)
   ────────────────────────────────────────────────────────────── -/

/-- The observable state the claims mention: `appState.selectedMain`,
`selectedMainType`, `selectedSub`, the visible step (1, 2 or 3, per
`showStep`), and the loading-overlay flag of `showLoading`. -/
structure UIState where
  selectedMain : Option String
  selectedMainType : Option String
  selectedSub : Option String
  step : ℕ
  loading : Bool
deriving DecidableEq, Repr

/-- Outcome of the `fetch(API_DISCOVER, …)` round trip: a parsed 2xx
response with its `results`, a non-2xx response (carrying the parsed
`error` field when the body has one), or a transport error. -/
inductive FetchOutcome (α : Type) where
  | success : α → FetchOutcome α
  | httpError : Option String → FetchOutcome α
  | networkError : FetchOutcome α
deriving DecidableEq, Repr

/-- The outcomes the `catch` block of `discover` handles. -/
def isFailureOutcome : FetchOutcome α → Bool
  | .success _ => false
  | _ => true

/-- Function `discover` (lines 104-161): `showLoading(true)`, the fetch, and on
any failure the `catch` block returns `null` while the `finally` block
runs `showLoading(false)`.  Returns the state after the call together
with the returned value (`none` = `null`). -/
def discover (st : UIState) (outcome : FetchOutcome (List String)) :
    UIState × Option (List String) :=
  let stLoading := { st with loading := true }
  match outcome with
  | .success results => ({ stLoading with loading := false }, some results)
  | .httpError _ => ({ stLoading with loading := false }, none)
  | .networkError => ({ stLoading with loading := false }, none)

/-- The search-button handler (lines 624-647): bail out when nothing is
selected; otherwise run `discover` and only on a non-null result render
and move to step 3. -/
def searchButtonClick (st : UIState) (outcome : FetchOutcome (List String)) : UIState :=
  if st.selectedMain.isNone then st
  else
    let r := discover st outcome
    match r.2 with
    | some _ => { r.1 with step := 3 }
    | none => r.1

/- ──────────────────────────────────────────────────────────────
   Helper lemmas
   ────────────────────────────────────────────────────────────── -/

/-- Here `pageCount` is the ceiling of `len / ps`: the least `pc` with
`len ≤ ps * pc`. -/
theorem pageCount_ceil (len ps : ℕ) (hps : 0 < ps) :
    len ≤ ps * pageCount len ps ∧ ps * pageCount len ps < len + ps := by
  unfold pageCount
  cases len with
  | zero =>
    have h0 : (0 + ps - 1) / ps = 0 := Nat.div_eq_of_lt (by omega)
    rw [h0, Nat.mul_zero]
    omega
  | succ n =>
    have h1 : n + 1 + ps - 1 = n + ps := by omega
    rw [h1, Nat.add_div_right n hps, Nat.mul_succ]
    have h2 := Nat.div_add_mod n ps
    have h3 : n % ps < ps := Nat.mod_lt _ hps
    generalize hX : ps * (n / ps) = X at h2 ⊢
    generalize hr : n % ps = r at h2 h3
    omega

theorem pageCount_pos (len ps : ℕ) (hps : 0 < ps) (hlen : len ≠ 0) :
    0 < pageCount len ps := by
  rcases pageCount_ceil len ps hps with ⟨h1, _⟩
  by_contra hc
  have h0 : pageCount len ps = 0 := by omega
  rw [h0, Nat.mul_zero] at h1
  omega

theorem iterNextPage_succ (len ps : ℕ) (idx : Option ℕ) (n : ℕ) :
    iterNextPage len ps idx (n + 1) =
      iterNextPage len ps (idx.bind fun i => nextPageIndex i len ps) n := rfl

/-- Iterating the next-page update `k` times from a reduced index adds
`k` modulo the page count. -/
theorem iterNextPage_mod (len ps : ℕ) (hpc : 0 < pageCount len ps) :
    ∀ (k j : ℕ), iterNextPage len ps (some (j % pageCount len ps)) k =
      some ((j + k) % pageCount len ps) := by
  intro k
  induction k with
  | zero => intro j; simp [iterNextPage]
  | succ n ih =>
    intro j
    rw [iterNextPage_succ]
    have hstep : (some (j % pageCount len ps)).bind
        (fun i => nextPageIndex i len ps) = some ((j + 1) % pageCount len ps) := by
      simp [nextPageIndex, hpc.ne', Nat.mod_add_mod]
    rw [hstep, ih (j + 1)]
    have harith : j + 1 + n = j + (n + 1) := by omega
    rw [harith]

/- ──────────────────────────────────────────────────────────────
   Claim theorems: pagination, page size, padding
   ────────────────────────────────────────────────────────────── -/

/-- C1: the claim (and the code's own comment, "最低5個を確保") says a
source list of length `n < 5` is padded cyclically to length
`max n 5`, but `slice(0, 5 - n)` cannot produce more than `n`
duplicates and does not cycle: a one-item list pads to two items, short
of the promised five. -/
theorem padItems_short_list_stays_short :
    padItems ["a"] = ["a", "a"] ∧ (padItems ["a"]).length = 2 ∧
      (padItems ["a"]).length < 5 := by decide

/-- C5 (amended): for a nonempty item list `nextPage` advances the
index by 1 modulo `pageCount = ceil(len / pageSize)` (first conjunct:
`pageCount` is that ceiling) and the result is in range; but for an
empty list the modulus is 0 and the index becomes `NaN` (`none`), not
`(idx + 1) % 1 = 0` — the displayed page is still empty and nothing
throws. -/
theorem nextPage_spec (items : List String) (idx ps : ℕ) (hps : 0 < ps) :
    (items.length ≤ ps * pageCount items.length ps ∧
      ps * pageCount items.length ps < items.length + ps) ∧
    (items ≠ [] →
      nextPageIndex idx items.length ps =
        some ((idx + 1) % pageCount items.length ps) ∧
      (idx + 1) % pageCount items.length ps < pageCount items.length ps) ∧
    (items = [] →
      nextPageIndex idx items.length ps = none ∧
      currentPageItems items (nextPageIndex idx items.length ps) ps = []) := by
  refine ⟨pageCount_ceil _ _ hps, ?_, ?_⟩
  · intro hne
    have hlen : items.length ≠ 0 := fun h => hne (List.length_eq_zero.mp h)
    have hpc : 0 < pageCount items.length ps := pageCount_pos _ _ hps hlen
    exact ⟨by simp [nextPageIndex, hpc.ne'], Nat.mod_lt _ hpc⟩
  · intro he
    subst he
    have h0 : pageCount 0 ps = 0 := by
      unfold pageCount
      exact Nat.div_eq_of_lt (by omega)
    simp [nextPageIndex, h0, currentPageItems]

/-- Witness for C5 at `items = ["a","b","c"]`, `idx = 5`, `ps = 2`. -/
theorem nextPage_spec_witness :
    nextPageIndex 5 3 2 = some ((5 + 1) % pageCount 3 2) :=
  ((nextPage_spec ["a", "b", "c"] 5 2 (by norm_num)).2.1 (by decide)).1

/-- C5 counterexample: with an empty item list the page count computed
by the code is 0 and the advanced index is `NaN` (`none`), not the
`(0 + 1) % 1 = 0` the claim's phrase (pageCount is defined as 1) would give. -/
theorem nextPage_empty_counterexample :
    pageCount 0 14 = 0 ∧ nextPageIndex 0 0 14 = none ∧
      nextPageIndex 0 0 14 ≠ some ((0 + 1) % 1) := by decide

/-- C8 (amended): from any in-range index of a nonempty list, applying
`nextPage` `pageCount` times returns to the ORIGINAL index (which is 0
only when the start was 0). -/
theorem nextPage_cycles (len ps idx : ℕ) (hps : 0 < ps) (hlen : len ≠ 0)
    (hidx : idx < pageCount len ps) :
    iterNextPage len ps (some idx) (pageCount len ps) = some idx := by
  have hpc : 0 < pageCount len ps := pageCount_pos _ _ hps hlen
  have h1 : idx % pageCount len ps = idx := Nat.mod_eq_of_lt hidx
  conv_lhs => rw [← h1]
  rw [iterNextPage_mod len ps hpc (pageCount len ps) idx, Nat.add_mod_right, h1]

/-- Witness for C8 at `len = 30`, `ps = 14` (`pageCount = 3`),
`idx = 2`. -/
theorem nextPage_cycles_witness :
    iterNextPage 30 14 (some 2) (pageCount 30 14) = some 2 :=
  nextPage_cycles 30 14 2 (by norm_num) (by norm_num) (by decide)

/-- C8 counterexample: from index 1 with two pages (`len = 20`,
`ps = 10`), `pageCount` applications of `nextPage` return to 1, not to
0 as claimed. -/
theorem nextPage_cycles_counterexample :
    iterNextPage 20 10 (some 1) (pageCount 20 10) = some 1 ∧
      iterNextPage 20 10 (some 1) (pageCount 20 10) ≠ some 0 := by decide

/-- C9: `getWordcloudItemsPerPage` returns 10 below 480, 12 in
[480, 768), 14 from 768 on, and is monotonically non-decreasing. -/
theorem getWordcloudItemsPerPage_spec (w v : ℚ) :
    (getWordcloudItemsPerPage w = 10 ∨ getWordcloudItemsPerPage w = 12 ∨
      getWordcloudItemsPerPage w = 14) ∧
    (w < 480 → getWordcloudItemsPerPage w = 10) ∧
    (480 ≤ w → w < 768 → getWordcloudItemsPerPage w = 12) ∧
    (768 ≤ w → getWordcloudItemsPerPage w = 14) ∧
    (w ≤ v → getWordcloudItemsPerPage w ≤ getWordcloudItemsPerPage v) := by
  unfold getWordcloudItemsPerPage
  refine ⟨?_, ?_, ?_, ?_, ?_⟩ <;> intros <;> split_ifs <;> first | omega | linarith

/-- Witness for C9 at `w = 320`, `v = 1024`. -/
theorem getWordcloudItemsPerPage_spec_witness :
    getWordcloudItemsPerPage 320 = 10 ∧
      getWordcloudItemsPerPage 320 ≤ getWordcloudItemsPerPage 1024 :=
  ⟨(getWordcloudItemsPerPage_spec 320 1024).2.1 (by norm_num),
   (getWordcloudItemsPerPage_spec 320 1024).2.2.2.2 (by norm_num)⟩

/- ──────────────────────────────────────────────────────────────
   Claim theorems: extractYouTubeVideoId, error handling, colors
   ────────────────────────────────────────────────────────────── -/

/-- C6 (amended): the three quoted examples hold, and in general a
`youtu.be` host yields the WHOLE path after the leading slash (not just
the first path segment), a host matching neither pattern yields `null`,
and unparseable input yields `null`. -/
theorem extractYouTubeVideoId_spec :
    extractYouTubeVideoId ("https://www.youtube.com/watch?v=abc123") = some ("abc123") ∧
    extractYouTubeVideoId ("https://youtu.be/xyz789") = some ("xyz789") ∧
    extractYouTubeVideoId ("https://example.com/x") = none ∧
    (∀ url, parseURL url = none → extractYouTubeVideoId url = none) ∧
    (∀ url u, parseURL url = some u →
      containsSub ("youtube.com").data u.hostname.data = false →
      containsSub ("youtu.be").data u.hostname.data = true →
      extractYouTubeVideoId url = some (String.mk (u.pathname.data.drop 1))) ∧
    (∀ url u, parseURL url = some u →
      containsSub ("youtube.com").data u.hostname.data = false →
      containsSub ("youtu.be").data u.hostname.data = false →
      extractYouTubeVideoId url = none) := by
  refine ⟨by decide, by decide, by decide, ?_, ?_, ?_⟩
  · intro url hp
    unfold extractYouTubeVideoId
    rw [hp]
  · intro url u hp h1 h2
    unfold extractYouTubeVideoId
    rw [hp]
    simp [h1, h2]
  · intro url u hp h1 h2
    unfold extractYouTubeVideoId
    rw [hp]
    simp [h1, h2]

/-- Witness for C6: an input without `"://"` makes `new URL` throw and
the function return `null`. -/
theorem extractYouTubeVideoId_spec_witness :
    extractYouTubeVideoId ("notaurl") = none :=
  extractYouTubeVideoId_spec.2.2.2.1 ("notaurl") (by decide)

/-- C6 counterexample: on `https://youtu.be/abc/def` the code returns
the whole remaining path `"abc/def"`, not the first path segment
`"abc"` the claim describes. -/
theorem extractYouTubeVideoId_counterexample :
    extractYouTubeVideoId ("https://youtu.be/abc/def") = some ("abc/def") ∧
      specFirstPathSegment ("/abc/def") = "abc" ∧
      extractYouTubeVideoId ("https://youtu.be/abc/def") ≠
        some (specFirstPathSegment ("/abc/def")) := by decide

/-- C7: when the discovery fetch fails (non-2xx or network error),
`discover` returns `null`, the handler does not advance the step,
`selectedMain` / `selectedMainType` / `selectedSub` are untouched, and
the `finally` block has cleared the loading flag. -/
theorem discover_failure_keeps_state (st : UIState) (m : String)
    (outcome : FetchOutcome (List String)) (hsel : st.selectedMain = some m)
    (hfail : isFailureOutcome outcome = true) :
    (discover st outcome).2 = none ∧
    (searchButtonClick st outcome).step = st.step ∧
    (searchButtonClick st outcome).selectedMain = st.selectedMain ∧
    (searchButtonClick st outcome).selectedMainType = st.selectedMainType ∧
    (searchButtonClick st outcome).selectedSub = st.selectedSub ∧
    (searchButtonClick st outcome).loading = false := by
  cases outcome with
  | success r => simp [isFailureOutcome] at hfail
  | httpError e => simp [discover, searchButtonClick, hsel]
  | networkError => simp [discover, searchButtonClick, hsel]

/-- Witness for C7: an HTTP-500-style outcome from step 2. -/
theorem discover_failure_keeps_state_witness :
    (discover ⟨some ("カント"), some ("philosopher"), some ("生き方について"), 2, false⟩
        (.httpError (some ("検索API 失敗")))).2 = none ∧
    (searchButtonClick ⟨some ("カント"), some ("philosopher"), some ("生き方について"), 2, false⟩
        (.httpError (some ("検索API 失敗")))).step = 2 ∧
    (searchButtonClick ⟨some ("カント"), some ("philosopher"), some ("生き方について"), 2, false⟩
        (.httpError (some ("検索API 失敗")))).selectedMain = some ("カント") ∧
    (searchButtonClick ⟨some ("カント"), some ("philosopher"), some ("生き方について"), 2, false⟩
        (.httpError (some ("検索API 失敗")))).selectedMainType = some ("philosopher") ∧
    (searchButtonClick ⟨some ("カント"), some ("philosopher"), some ("生き方について"), 2, false⟩
        (.httpError (some ("検索API 失敗")))).selectedSub = some ("生き方について") ∧
    (searchButtonClick ⟨some ("カント"), some ("philosopher"), some ("生き方について"), 2, false⟩
        (.httpError (some ("検索API 失敗")))).loading = false :=
  discover_failure_keeps_state
    ⟨some ("カント"), some ("philosopher"), some ("生き方について"), 2, false⟩
    "カント" (.httpError (some ("検索API 失敗"))) rfl rfl

/-- C10: for a nonempty name both pickers return an element of their
fixed palette (8 entries / 6 entries), determined solely by the first
character's code modulo the palette length; for the empty string both
return the out-of-palette `undefined` (`none`). -/
theorem tagColors_spec (name : String) (h : name ≠ "") :
    philosopherColors.length = 8 ∧ themeColors.length = 6 ∧
    (∃ col, col ∈ philosopherColors ∧ getPhilosopherColor name = some col ∧
      col = philosopherColors.getD (firstCharCode name % 8) "") ∧
    (∃ col, col ∈ themeColors ∧ getThemeColor name = some col ∧
      col = themeColors.getD (firstCharCode name % 6) "") ∧
    getPhilosopherColor ("") = none ∧ getThemeColor ("") = none := by
  have hmem8 : ∀ k, k < 8 → philosopherColors.getD k ("") ∈ philosopherColors := by decide
  have hmem6 : ∀ k, k < 6 → themeColors.getD k ("") ∈ themeColors := by decide
  obtain ⟨cs⟩ := name
  cases cs with
  | nil => exact absurd rfl h
  | cons c rest =>
    refine ⟨rfl, rfl, ?_, ?_, rfl, rfl⟩
    · exact ⟨philosopherColors.getD (c.toNat % 8) "",
        hmem8 _ (Nat.mod_lt _ (by norm_num)), rfl, rfl⟩
    · exact ⟨themeColors.getD (c.toNat % 6) "",
        hmem6 _ (Nat.mod_lt _ (by norm_num)), rfl, rfl⟩

/-- Witness for C10 at `name = "a"`. -/
theorem tagColors_spec_witness :
    ∃ col, col ∈ philosopherColors ∧ getPhilosopherColor ("a") = some col ∧
      col = philosopherColors.getD (firstCharCode ("a") % 8) "" :=
  (tagColors_spec ("a") (by decide)).2.2.1

/- ──────────────────────────────────────────────────────────────
   Placement-engine lemmas
   ────────────────────────────────────────────────────────────── -/

theorem sepBoxes_symm {a b : Box} (h : SepBoxes a b) : SepBoxes b a := by
  unfold SepBoxes at h ⊢
  rcases h with h | h | h | h
  · exact Or.inr (Or.inl h)
  · exact Or.inl h
  · exact Or.inr (Or.inr (Or.inr h))
  · exact Or.inr (Or.inr (Or.inl h))

/-- A non-colliding candidate clears every already placed box by more
than the padding. -/
theorem isCollidingStrict_eq_false_iff (x y w h : ℚ) (placed : List Box) :
    isCollidingStrict x y w h placed = false ↔
      ∀ a ∈ placed, SepBoxes ⟨x, y, w, h⟩ a := by
  unfold isCollidingStrict SepBoxes
  rw [List.any_eq_false]
  constructor
  · intro hall a ha
    have := hall a ha
    simp only [Bool.not_eq_true', Bool.not_eq_false] at this
    simp only [Bool.or_eq_true, decide_eq_true_eq] at this
    tauto
  · intro hall a ha
    have := hall a ha
    simp only [Bool.not_eq_true', Bool.not_eq_false, Bool.or_eq_true, decide_eq_true_eq]
    tauto

/-- The clamped candidate coordinates land in
`[5, max 5 (cw - w - 5)] × [5, max 5 (ch - h - 5)]`. -/
theorem jsMax_clamp (a b x : ℚ) : a ≤ jsMax a (jsMin x b) ∧ jsMax a (jsMin x b) ≤ jsMax a b := by
  unfold jsMax jsMin
  split_ifs <;> constructor <;> linarith

theorem candidate_clamped (env : Env) (cw ch angle radius w h : ℚ) (i : ℕ) :
    5 ≤ (candidate env cw ch angle radius w h i).1 ∧
    (candidate env cw ch angle radius w h i).1 ≤ jsMax 5 (cw - w - 5) ∧
    5 ≤ (candidate env cw ch angle radius w h i).2 ∧
    (candidate env cw ch angle radius w h i).2 ≤ jsMax 5 (ch - h - 5) := by
  unfold candidate
  exact ⟨(jsMax_clamp _ _ _).1, (jsMax_clamp _ _ _).2,
    (jsMax_clamp _ _ _).1, (jsMax_clamp _ _ _).2⟩

/-- When the retry loop stops early (`attempts < 20`), the returned
position is one of the candidates and it does not collide with the
boxes placed so far. -/
theorem placeLoop_success (env : Env) (cw ch angle radius w h : ℚ) (placed : List Box) :
    ∀ (fuel i attempts : ℕ) (x y : ℚ) (a i' : ℕ),
      20 ≤ attempts + fuel →
      placeLoop env cw ch angle radius w h placed i attempts fuel = (x, y, a, i') →
      a < 20 →
      (∃ j, (x, y) = candidate env cw ch angle radius w h j) ∧
        isCollidingStrict x y w h placed = false := by
  intro fuel
  induction fuel with
  | zero =>
    intro i attempts x y a i' hle heq ha
    simp only [placeLoop, Prod.mk.injEq] at heq
    omega
  | succ fuel ih =>
    intro i attempts x y a i' hle heq ha
    simp only [placeLoop] at heq
    split at heq
    · exact ih (i + 2) (attempts + 1) x y a i' (by omega) heq ha
    · rename_i hcond
      simp only [Prod.mk.injEq] at heq
      obtain ⟨hx, hy, hatt, -⟩ := heq
      have hfree : isCollidingStrict
          (candidate env cw ch angle radius w h i).1
          (candidate env cw ch angle radius w h i).2 w h placed = false := by
        rcases Bool.eq_false_or_eq_true
            (isCollidingStrict (candidate env cw ch angle radius w h i).1
              (candidate env cw ch angle radius w h i).2 w h placed) with hb | hb
        · exact absurd ⟨hb, by omega⟩ hcond
        · exact hb
      subst hx hy
      exact ⟨⟨i, rfl⟩, hfree⟩


/-- Equation `jsMax a b = b` once `a ≤ b`. -/
theorem jsMax_eq_right {a b : ℚ} (h : a ≤ b) : jsMax a b = b := if_pos h

/-- Projection form of `placeLoop_success` for the call site in
`placeItem`. -/
theorem placeLoop_success_proj (env : Env) (cw ch angle radius w h : ℚ)
    (placed : List Box) (fuel i attempts : ℕ) (h20 : 20 ≤ attempts + fuel)
    (hlt : (placeLoop env cw ch angle radius w h placed i attempts fuel).2.2.1 < 20) :
    (∃ j, ((placeLoop env cw ch angle radius w h placed i attempts fuel).1,
        (placeLoop env cw ch angle radius w h placed i attempts fuel).2.1) =
      candidate env cw ch angle radius w h j) ∧
    isCollidingStrict (placeLoop env cw ch angle radius w h placed i attempts fuel).1
      (placeLoop env cw ch angle radius w h placed i attempts fuel).2.1
      w h placed = false :=
  placeLoop_success env cw ch angle radius w h placed fuel i attempts
    (placeLoop env cw ch angle radius w h placed i attempts fuel).1
    (placeLoop env cw ch angle radius w h placed i attempts fuel).2.1
    (placeLoop env cw ch angle radius w h placed i attempts fuel).2.2.1
    (placeLoop env cw ch angle radius w h placed i attempts fuel).2.2.2
    h20 rfl hlt

/-- Step `placeItem` either drops its item, leaving the placed list
unchanged, or appends exactly one box whose coordinates are those of a
non-colliding candidate and whose size is the drawn width × 40. -/
theorem placeItem_placed_cases (env : Env) (cw ch : ℚ) (s : PlaceState) :
    ((placeItem env cw ch s).1).placed = s.placed ∨
    ∃ j : ℕ,
      isCollidingStrict
        (candidate env cw ch s.angle s.radius
          (getItemWidth (getRandomSize (env.rand s.i))) 40 j).1
        (candidate env cw ch s.angle s.radius
          (getItemWidth (getRandomSize (env.rand s.i))) 40 j).2
        (getItemWidth (getRandomSize (env.rand s.i))) 40 s.placed = false ∧
      ((placeItem env cw ch s).1).placed = s.placed ++
        [⟨(candidate env cw ch s.angle s.radius
            (getItemWidth (getRandomSize (env.rand s.i))) 40 j).1,
          (candidate env cw ch s.angle s.radius
            (getItemWidth (getRandomSize (env.rand s.i))) 40 j).2,
          getItemWidth (getRandomSize (env.rand s.i)), 40⟩] := by
  by_cases hlt : (placeLoop env cw ch s.angle s.radius
      (getItemWidth (getRandomSize (env.rand s.i))) 40 s.placed (s.i + 1) 0 20).2.2.1 < 20
  · obtain ⟨⟨j, hj⟩, hfree⟩ := placeLoop_success_proj env cw ch s.angle s.radius
      (getItemWidth (getRandomSize (env.rand s.i))) 40 s.placed 20 (s.i + 1) 0
      (by omega) hlt
    have h1 := congrArg Prod.fst hj
    have h2 := congrArg Prod.snd hj
    simp only [] at h1 h2
    right
    refine ⟨j, ?_, ?_⟩
    · rw [← h1, ← h2]
      exact hfree
    · simp only [placeItem, hlt, if_pos]
      rw [h1, h2]
  · left
    simp only [placeItem, hlt, if_neg, not_false_iff]

/-- Invariants of the placed list carried through a whole page
placement pass. -/
theorem placeAll_inv (env : Env) (cw ch : ℚ) (P : List Box → Prop)
    (hstep : ∀ s : PlaceState, P s.placed → P ((placeItem env cw ch s).1).placed)
    (hinit : P ([] : List Box)) (items : List String) :
    P ((placeAll env cw ch items).placed) := by
  unfold placeAll
  suffices h : ∀ (l : List String) (s : PlaceState), P s.placed →
      P ((l.foldl (fun s _ => (placeItem env cw ch s).1) s).placed) by
    exact h items (initState cw) hinit
  intro l
  induction l with
  | nil => intro s hs; exact hs
  | cons a l ih => intro s hs; exact ih _ (hstep s hs)

theorem placeItem_preserves_inBounds (env : Env) (cw ch : ℚ) (s : PlaceState)
    (hs : ∀ b ∈ s.placed, InBounds cw ch b) :
    ∀ b ∈ ((placeItem env cw ch s).1).placed, InBounds cw ch b := by
  rcases placeItem_placed_cases env cw ch s with hcase | ⟨j, hfree, hcase⟩
  · rw [hcase]; exact hs
  · rw [hcase]
    intro b hb
    rcases List.mem_append.mp hb with hb | hb
    · exact hs b hb
    · rw [List.mem_singleton.mp hb]
      obtain ⟨h1, h2, h3, h4⟩ := candidate_clamped env cw ch s.angle s.radius
        (getItemWidth (getRandomSize (env.rand s.i))) 40 j
      refine ⟨h1, h3, ?_, ?_⟩
      · intro hw
        dsimp only at hw ⊢
        have hmax : jsMax 5 (cw - getItemWidth (getRandomSize (env.rand s.i)) - 5) =
            cw - getItemWidth (getRandomSize (env.rand s.i)) - 5 :=
          jsMax_eq_right (by linarith)
        rw [hmax] at h2
        linarith
      · intro hh
        dsimp only at hh ⊢
        have hmax : jsMax 5 (ch - 40 - 5) = ch - 40 - 5 := jsMax_eq_right (by linarith)
        rw [hmax] at h4
        linarith

theorem placeItem_preserves_pairwise (env : Env) (cw ch : ℚ) (s : PlaceState)
    (hs : s.placed.Pairwise fun a b => SepBoxes b a ∧ SepBoxes a b) :
    ((placeItem env cw ch s).1).placed.Pairwise fun a b => SepBoxes b a ∧ SepBoxes a b := by
  rcases placeItem_placed_cases env cw ch s with hcase | ⟨j, hfree, hcase⟩
  · rw [hcase]; exact hs
  · rw [hcase, List.pairwise_append]
    refine ⟨hs, by simp, ?_⟩
    intro a ha b hb
    rw [List.mem_singleton.mp hb]
    have hsep := (isCollidingStrict_eq_false_iff _ _ _ _ _).mp hfree a ha
    exact ⟨hsep, sepBoxes_symm hsep⟩

/- ──────────────────────────────────────────────────────────────
   Claim theorems: the placement engine
   ────────────────────────────────────────────────────────────── -/

/-- C2 (amended): any two placements emitted for the same page clear
each other by more than the padding 15 in some axis — equivalently,
neither box meets the OTHER box expanded by 15 on all sides.  (The
claim's reading, both boxes expanded by 15, i.e. a clearance of more
than 30, is refuted by the counterexample below.) -/
theorem placements_pairwise_separated (env : Env) (cw ch : ℚ) (items : List String) :
    ((placeAll env cw ch items).placed).Pairwise fun a b => SepBoxes b a ∧ SepBoxes a b :=
  placeAll_inv env cw ch
    (fun placed => placed.Pairwise fun a b => SepBoxes b a ∧ SepBoxes a b)
    (fun s hs => placeItem_preserves_pairwise env cw ch s hs) (by simp) items

set_option maxRecDepth 400000 in
/-- C2 counterexample: a reachable page run emits two boxes with a
vertical gap of 20 — more than the 15 the code enforces, but the two
rectangles expanded by 15 EACH (as the claim reads) do intersect. -/
theorem placements_doubly_padded_counterexample :
    (placeAll envTwoClose 1000 1000 ["A", "B"]).placed =
        [⟨440, 480, 120, 40⟩, ⟨440, 540, 120, 40⟩] ∧
      ¬paddedDisjoint ⟨440, 480, 120, 40⟩ ⟨440, 540, 120, 40⟩ := by
  with_unfolding_all decide

/-- C4 (amended): every emitted placement keeps a margin of at least 5
from the left and top edges unconditionally, and from the right and
bottom edges whenever the bounds can accommodate the box at all
(`width + 10 ≤ bounds.width`, `height + 10 ≤ bounds.height`); for
smaller bounds the clamp pins the box at 5 and the right/bottom margin
fails (see the counterexample). -/
theorem placements_within_bounds (env : Env) (cw ch : ℚ) (items : List String)
    (b : Box) (hb : b ∈ (placeAll env cw ch items).placed) :
    5 ≤ b.x ∧ 5 ≤ b.y ∧ (b.width + 10 ≤ cw → b.x + b.width ≤ cw - 5) ∧
      (b.height + 10 ≤ ch → b.y + b.height ≤ ch - 5) :=
  placeAll_inv env cw ch (fun placed => ∀ b ∈ placed, InBounds cw ch b)
    (fun s hs => placeItem_preserves_inBounds env cw ch s hs) (by simp) items b hb

set_option maxRecDepth 400000 in
/-- Witness for C4: a concrete run in 1000×1000 bounds places the box
`(440, 480, 120, 40)`, well inside the margins. -/
theorem placements_within_bounds_witness :
    5 ≤ (440 : ℚ) ∧ 5 ≤ (480 : ℚ) ∧
      ((120 : ℚ) + 10 ≤ 1000 → (440 : ℚ) + 120 ≤ 1000 - 5) ∧
      ((40 : ℚ) + 10 ≤ 1000 → (480 : ℚ) + 40 ≤ 1000 - 5) :=
  placements_within_bounds constEnvHalf 1000 1000 ["A"] ⟨440, 480, 120, 40⟩
    (by with_unfolding_all decide)

set_option maxRecDepth 400000 in
/-- C4 counterexample: with bounds 50×1000 (narrower than the 120-wide
item plus margins) the engine still emits a box, pinned at `x = 5`, and
`x + width ≤ bounds.width - 5` fails — the claim is not true for every
bounds. -/
theorem placements_small_bounds_counterexample :
    (placeAll constEnvHalf 50 1000 ["A"]).placed = [⟨5, 480, 120, 40⟩] ∧
      ¬((5 : ℚ) + 120 ≤ 50 - 5) := by
  with_unfolding_all decide

/-- The retry loop exits successfully (final `attempts < 20`) exactly
when one of its first `fuel - 1` candidates is collision-free; the
candidate of the very last allowed iteration never counts, because
`attempts` has already reached the bound when it is examined. -/
theorem placeLoop_attempts_iff (env : Env) (cw ch angle radius w h : ℚ)
    (placed : List Box) :
    ∀ (fuel i attempts : ℕ), attempts + fuel = 20 →
      ((placeLoop env cw ch angle radius w h placed i attempts fuel).2.2.1 < 20 ↔
        ∃ k, k + 1 < fuel ∧
          isCollidingStrict (candidate env cw ch angle radius w h (i + 2 * k)).1
            (candidate env cw ch angle radius w h (i + 2 * k)).2 w h placed = false) := by
  intro fuel
  induction fuel with
  | zero =>
    intro i attempts h20
    constructor
    · intro hlt
      simp only [placeLoop] at hlt
      omega
    · rintro ⟨k, hk, -⟩
      omega
  | succ fuel ih =>
    intro i attempts h20
    simp only [placeLoop]
    by_cases hc : isCollidingStrict (candidate env cw ch angle radius w h i).1
        (candidate env cw ch angle radius w h i).2 w h placed = true ∧ attempts + 1 < 20
    · rw [if_pos hc]
      rw [ih (i + 2) (attempts + 1) (by omega)]
      constructor
      · rintro ⟨k, hk, hfree⟩
        refine ⟨k + 1, by omega, ?_⟩
        have harith : i + 2 * (k + 1) = i + 2 + 2 * k := by ring
        rw [harith]
        exact hfree
      · rintro ⟨k, hk, hfree⟩
        cases k with
        | zero =>
          rw [Nat.mul_zero, Nat.add_zero, hc.1] at hfree
          exact Bool.noConfusion hfree
        | succ k =>
          refine ⟨k, by omega, ?_⟩
          have harith : i + 2 * (k + 1) = i + 2 + 2 * k := by ring
          rw [harith] at hfree
          exact hfree
    · rw [if_neg hc]
      dsimp only
      constructor
      · intro hlt
        by_cases hcc : isCollidingStrict (candidate env cw ch angle radius w h i).1
            (candidate env cw ch angle radius w h i).2 w h placed = true
        · exact absurd ⟨hcc, hlt⟩ hc
        · refine ⟨0, by omega, ?_⟩
          simpa using Bool.not_eq_true _ ▸ hcc
      · rintro ⟨k, hk, -⟩
        omega

/-- C3 (amended): an item receives a placement iff one of the FIRST 19
candidate positions (0-based attempts 0..18) is collision-free; a
candidate that first becomes collision-free at the 20th attempt is
still dropped (the loop's `attempts < 20` test has already failed — see
the counterexample), and a dropped item leaves the placed list
unchanged, with no error and no placement emitted. -/
theorem placeItem_emits_iff (env : Env) (cw ch : ℚ) (s : PlaceState) :
    ((placeItem env cw ch s).2.isSome = true ↔
      ∃ k, k ≤ 18 ∧
        isCollidingStrict (itemCandidate env cw ch s k).1 (itemCandidate env cw ch s k).2
          (itemW env s) 40 s.placed = false) ∧
    ((placeItem env cw ch s).2 = none →
      ((placeItem env cw ch s).1).placed = s.placed) := by
  have hmain := placeLoop_attempts_iff env cw ch s.angle s.radius
    (getItemWidth (getRandomSize (env.rand s.i))) 40 s.placed
    20 (s.i + 1) 0 rfl
  constructor
  · by_cases hlt : (placeLoop env cw ch s.angle s.radius
        (getItemWidth (getRandomSize (env.rand s.i))) 40 s.placed (s.i + 1) 0 20).2.2.1 < 20
    · constructor
      · intro _
        obtain ⟨k, hk, hfree⟩ := hmain.mp hlt
        refine ⟨k, by omega, ?_⟩
        simpa [itemCandidate, itemW] using hfree
      · intro _
        simp [placeItem, hlt]
    · constructor
      · intro hsome
        exfalso
        simp [placeItem, hlt] at hsome
      · rintro ⟨k, hk, hfree⟩
        exfalso
        refine hlt (hmain.mpr ⟨k, by omega, ?_⟩)
        simpa [itemCandidate, itemW] using hfree
  · intro hnone
    by_cases hlt : (placeLoop env cw ch s.angle s.radius
        (getItemWidth (getRandomSize (env.rand s.i))) 40 s.placed (s.i + 1) 0 20).2.2.1 < 20
    · exfalso
      simp [placeItem, hlt] at hnone
    · simp [placeItem, hlt]

/-- Witness for C3: in a fresh 1000×1000 page the first item's first
candidate is collision-free and the item is placed. -/
theorem placeItem_emits_iff_witness :
    (placeItem constEnvHalf 1000 1000 (initState 1000)).2.isSome = true :=
  (placeItem_emits_iff constEnvHalf 1000 1000 (initState 1000)).1.mpr
    ⟨0, by norm_num, by with_unfolding_all decide⟩

set_option maxRecDepth 1000000 in
/-- C3 counterexample: placing a second item with `envLateFree`, the
candidates of attempts 1-19 all collide with the first box while the
candidate of attempt 20 (index 19, still within 20 attempts) is
collision-free — yet the item is dropped, refuting the claim's if-and-only-if at 20 attempts. -/
theorem placeItem_late_free_dropped_counterexample :
    (placeItem envLateFree 1000 1000 (placeAll envLateFree 1000 1000 ["A"])).2 = none ∧
      isCollidingStrict
        (itemCandidate envLateFree 1000 1000 (placeAll envLateFree 1000 1000 ["A"]) 19).1
        (itemCandidate envLateFree 1000 1000 (placeAll envLateFree 1000 1000 ["A"]) 19).2
        (itemW envLateFree (placeAll envLateFree 1000 1000 ["A"])) 40
        (placeAll envLateFree 1000 1000 ["A"]).placed = false := by
  with_unfolding_all decide
